import Mathlib

/-!
Verification of the youtube-search-mcp utility layer: a shallow embedding of
its validators, data parsers, retry decorator, error classification,
parameter-record validation, JSON formatting and formatter dispatch, with
theorems about each.  Where a module of the repository is not present in the
source tree (only its test suite is), the corresponding definition is modelled
from the specification; such definitions carry a doc comment beginning
`Modelled from the spec:`.
-/

namespace YoutubeSearchMcp

/-- Boolean test that the list `pat` occurs at the head of `l`. -/
def seqStartsWith : List Char → List Char → Bool
  | _, [] => true
  | [], _ :: _ => false
  | c :: cs, p :: ps => c == p && seqStartsWith cs ps

/-- Boolean test that the list `pat` occurs as a contiguous run inside `l`. -/
def seqContains : List Char → List Char → Bool
  | [], pat => pat.isEmpty
  | c :: cs, pat => seqStartsWith (c :: cs) pat || seqContains cs pat

/-- Boolean substring test on strings, the embedding of Python `pat in s`. -/
def containsSubstr (s pat : String) : Bool :=
  seqContains s.data pat.data

/-- Modelled from the spec: `utils/validators.py` is absent from src/ (only its
test suite is present).  A character is acceptable in a video identifier when
it is an ASCII letter, an ASCII digit, an underscore or a hyphen. -/
def is_valid_id_char (c : Char) : Bool :=
  ('A' ≤ c && c ≤ 'Z') || ('a' ≤ c && c ≤ 'z') || ('0' ≤ c && c ≤ '9') ||
    c == '_' || c == '-'

/-- Modelled from the spec: `utils/validators.py` is absent from src/.
`validate_video_id` accepts exactly the strings of eleven characters drawn
from ASCII letters, digits, underscore and hyphen; `none` embeds Python
`None`. -/
def validate_video_id : Option String → Bool
  | none => false
  | some s => s.length == 11 && s.data.all is_valid_id_char

/-- Boolean test for the whitespace characters removed by Python `str.strip`. -/
def isPyWhitespace (c : Char) : Bool :=
  c == ' ' || c == '\t' || c == '\n' || c == '\r'

/-- Drop the characters satisfying `p` from both ends of a character list. -/
def dropEnds (p : Char → Bool) (l : List Char) : List Char :=
  ((l.dropWhile p).reverse.dropWhile p).reverse

/-- The whitespace-trimmed form of a string, the embedding of Python
`s.strip()`. -/
def pyStrip (s : String) : String :=
  String.mk (dropEnds isPyWhitespace s.data)

/-- Modelled from the spec: the message raised for an absent, empty or
whitespace-only query. -/
def query_empty_msg : String := "Query cannot be empty"

/-- Modelled from the spec: the message raised for an over-long query. -/
def query_too_long_msg : String := "Query is too long (maximum 200 characters)"

/-- Outcome of query validation: the validated query, or the message of the
`InvalidQueryError` raised. -/
inductive QueryResult where
  | ok (q : String) : QueryResult
  | err (msg : String) : QueryResult
deriving DecidableEq

/-- Modelled from the spec: `utils/validators.py` is absent from src/.
`validate_query` trims the query, rejects it when absent, empty or
whitespace-only or when the trimmed text exceeds 200 characters, and otherwise
returns the trimmed text.  `QueryResult.err` embeds raising
`InvalidQueryError` with the given message. -/
def validate_query : Option String → QueryResult
  | none => QueryResult.err query_empty_msg
  | some s =>
    let t := pyStrip s
    if t.length = 0 then QueryResult.err query_empty_msg
    else if 200 < t.length then QueryResult.err query_too_long_msg
    else QueryResult.ok t

/-- Modelled from the spec: the nine characters `sanitize_filename` refuses in
filenames. -/
def invalid_filename_chars : List Char :=
  ['<', '>', ':', '"', '/', '\\', '|', '?', '*']

/-- Modelled from the spec: the characters stripped from both ends of a
sanitized filename. -/
def strip_edge_chars : List Char := ['.', ' ']

/-- Replace one character by an underscore when it is refused in filenames. -/
def replace_invalid (c : Char) : Char :=
  if invalid_filename_chars.contains c then '_' else c

/-- Boolean test for the characters stripped at the edges. -/
def isStripChar (c : Char) : Bool := strip_edge_chars.contains c

/-- Drop the stripped characters from both ends of a character list. -/
def stripEdges (l : List Char) : List Char :=
  dropEnds isStripChar l

/-- Modelled from the spec: `utils/validators.py` is absent from src/.
`sanitize_filename` replaces each refused character by an underscore, strips
leading and trailing periods and spaces, and falls back to `"unnamed"` when
nothing remains. -/
def sanitize_filename (s : String) : String :=
  let cleaned := stripEdges (s.data.map replace_invalid)
  if cleaned.isEmpty then "unnamed" else String.mk cleaned

/-- ASCII lower-casing of one character, the embedding of Python
`str.lower` on the character sets the indicators use. -/
def lowerChar (c : Char) : Char :=
  if 'A' ≤ c && c ≤ 'Z' then Char.ofNat (c.toNat + 32) else c

/-- ASCII lower-casing of a string. -/
def toLowerStr (s : String) : String :=
  String.mk (s.data.map lowerChar)

/-- The error taxonomy a failed extraction-library call is classified into:
`VideoNotFoundError`, `NetworkError` or the generic `DownloadError`. -/
inductive YtdlpErrorKind where
  | videoNotFound : YtdlpErrorKind
  | networkError : YtdlpErrorKind
  | downloadError : YtdlpErrorKind
deriving DecidableEq

/-- Modelled from the spec: `download/ytdlp_downloader.py` and
`search/ytdlp_provider.py` are absent from src/ (only their test suites are).
Lower-case fragments whose presence in the error message marks the video
unavailable. -/
def video_unavailable_indicators : List String :=
  ["unavailable", "private", "removed", "not available"]

/-- Modelled from the spec: lower-case fragments whose presence in the error
message marks a network failure. -/
def network_error_indicators : List String :=
  ["unable to download", "connection", "timeout", "network"]

/-- Modelled from the spec: the unavailable-video test of the error
classifier. -/
def _is_video_unavailable (msg : String) : Bool :=
  video_unavailable_indicators.any (fun k => containsSubstr (toLowerStr msg) k)

/-- Modelled from the spec: the network-failure test of the error
classifier. -/
def _is_network_error (msg : String) : Bool :=
  network_error_indicators.any (fun k => containsSubstr (toLowerStr msg) k)

/-- Modelled from the spec: the downloader's error handler `_handle_ytdlp_error`
is absent from src/.  It classifies an extraction-library failure into the
taxonomy, checking unavailability before network failure and falling back to
the generic `DownloadError`; the returned kind embeds the exception raised. -/
def _handle_ytdlp_error (msg : String) : YtdlpErrorKind :=
  if _is_video_unavailable msg then YtdlpErrorKind.videoNotFound
  else if _is_network_error msg then YtdlpErrorKind.networkError
  else YtdlpErrorKind.downloadError

/-- The typed download-request record, with the fields its tests exhibit. -/
structure DownloadParams where
  video_id : String
  quality : String
  output_dir : Option String
  format : String
  download_type : String
deriving DecidableEq

/-- Modelled from the spec: the enumerated quality values. -/
def allowed_qualities : List String := ["best", "high", "medium", "low"]

/-- Modelled from the spec: the enumerated download types. -/
def allowed_download_types : List String := ["video", "audio"]

/-- Modelled from the spec: `models/download_params.py` is absent from src/ and
the spec does not enumerate the allowed formats; this set contains every
format its tests construct. -/
def allowed_formats : List String := ["mp4", "webm", "mkv", "mp3", "m4a", "wav"]

/-- Modelled from the spec: `models/download_params.py` is absent from src/.
Construction of a `DownloadParams` record validates the identifier length and
the enumerated quality, download-type and format values; `Except.error` embeds
raising pydantic `ValidationError`. -/
def mkDownloadParams (video_id quality fm download_type : String)
    (output_dir : Option String) : Except String DownloadParams :=
  if video_id.length = 11 then
    if allowed_qualities.contains quality then
      if allowed_download_types.contains download_type then
        if allowed_formats.contains fm then
          Except.ok ⟨video_id, quality, output_dir, fm, download_type⟩
        else Except.error "format must be one of the allowed formats"
      else Except.error "download_type must be video or audio"
    else Except.error "quality must be one of best, high, medium, low"
  else Except.error "video_id must be exactly 11 characters"

/-- The two formatter implementations registered by the dependency module. -/
inductive ResultFormatter where
  | jsonFormatter : ResultFormatter
  | markdownFormatter : ResultFormatter
deriving DecidableEq

/-- The formatter dictionary `_formatters` after `initialize_dependencies`,
translated from `src/youtube_search_mcp/tools/dependencies.py`. -/
def initialized_formatters : List (String × ResultFormatter) :=
  [("json", ResultFormatter.jsonFormatter),
   ("markdown", ResultFormatter.markdownFormatter)]

/-- Python `dict.get` on an association list. -/
def dictGet {α : Type} : List (String × α) → String → Option α
  | [], _ => none
  | (k2, v) :: rest, k => if k2 = k then some v else dictGet rest k

/-- Translated from `get_formatter` in
`src/youtube_search_mcp/tools/dependencies.py`:
`_formatters.get(format_type, _formatters["json"])`; the `none` result embeds
the `KeyError` an uninitialized dictionary would raise. -/
def get_formatter (formatters : List (String × ResultFormatter))
    (format_type : String) : Option ResultFormatter :=
  match dictGet formatters format_type with
  | some f => some f
  | none => dictGet formatters "json"

/-- The typed video record the parser produces, with the fields its tests
exhibit. -/
structure Video where
  video_id : String
  title : String
  url : String
  duration : Option Int
  view_count : Option Int
  uploader : Option String
  upload_date : Option String
  thumbnail : Option String
  timestamp : Option Int
  release_timestamp : Option Int
deriving DecidableEq

/-- A raw upstream video dictionary, one optional field per key the parser
reads; a `none` field embeds an absent key, and `thumbnails` holds the urls of
the thumbnail-list entries (empty when the key is absent). -/
structure RawVideoData where
  id : Option String
  title : Option String
  duration : Option Int
  view_count : Option Int
  uploader : Option String
  channel : Option String
  upload_date : Option String
  thumbnail : Option String
  thumbnails : List String
  timestamp : Option Int
  release_timestamp : Option Int
deriving DecidableEq

/-- Modelled from the spec: the thumbnail helper prefers the direct string
field and otherwise takes the last entry of the thumbnails list. -/
def _extract_thumbnail_url (d : RawVideoData) : Option String :=
  match d.thumbnail with
  | some t => some t
  | none => d.thumbnails.getLast?

/-- The fixed watch-page url stem the parser prepends to the video id. -/
def watch_url_base : String := "https://youtube.com/watch?v="

/-- Modelled from the spec: `search/parsers.py` is absent from src/ (only its
test suite is).  `parse_video` maps a raw upstream dictionary to a typed
`Video`, defaulting a missing id to `""` and a missing title to `"Unknown"`,
building the url from the fixed stem and the id, and resolving `uploader` by
falling back to `channel`.  The timezone-dependent timestamp-to-date
conversion is abstracted as the parameter `conv`. -/
def parse_video (conv : Option Int → Option String) (d : RawVideoData) :
    Video :=
  let vid := d.id.getD ""
  { video_id := vid
    title := d.title.getD "Unknown"
    url := watch_url_base ++ vid
    duration := d.duration
    view_count := d.view_count
    uploader := d.uploader.orElse (fun _ => d.channel)
    upload_date := d.upload_date.orElse (fun _ => conv d.timestamp)
    thumbnail := _extract_thumbnail_url d
    timestamp := d.timestamp
    release_timestamp := d.release_timestamp }

/-- The typed playlist record the parser produces. -/
structure Playlist where
  playlist_id : String
  title : String
  url : String
  uploader : Option String
  uploader_id : Option String
  video_count : Option Int
  thumbnail : Option String
  description : Option String
  modified_date : Option String
deriving DecidableEq

/-- A raw upstream playlist dictionary, one optional field per key the parser
reads. -/
structure RawPlaylistData where
  id : Option String
  title : Option String
  uploader : Option String
  channel : Option String
  uploader_id : Option String
  channel_id : Option String
  playlist_count : Option Int
  n_entries : Option Int
  thumbnail : Option String
  thumbnails : List String
  description : Option String
  modified_date : Option String
deriving DecidableEq

/-- The fixed playlist url stem the parser prepends to the playlist id. -/
def playlist_url_base : String := "https://youtube.com/playlist?list="

/-- Modelled from the spec: the playlist thumbnail helper, like the video
one. -/
def _extract_playlist_thumbnail (d : RawPlaylistData) : Option String :=
  match d.thumbnail with
  | some t => some t
  | none => d.thumbnails.getLast?

/-- Modelled from the spec: `search/parsers.py` is absent from src/.
`parse_playlist` maps a raw upstream dictionary to a typed `Playlist`, with
`uploader` falling back to `channel`, `uploader_id` to `channel_id` and
`video_count` to `n_entries`. -/
def parse_playlist (d : RawPlaylistData) : Playlist :=
  let pid := d.id.getD ""
  { playlist_id := pid
    title := d.title.getD "Unknown"
    url := playlist_url_base ++ pid
    uploader := d.uploader.orElse (fun _ => d.channel)
    uploader_id := d.uploader_id.orElse (fun _ => d.channel_id)
    video_count := d.playlist_count.orElse (fun _ => d.n_entries)
    thumbnail := _extract_playlist_thumbnail d
    description := d.description
    modified_date := d.modified_date }

/-- The JSON values the formatter renders, in the shape `json.dumps`
serializes. -/
inductive JsonVal where
  | jnull : JsonVal
  | jnum (n : Int) : JsonVal
  | jstr (s : String) : JsonVal
  | jarr (l : List JsonVal) : JsonVal
  | jobj (fields : List (String × JsonVal)) : JsonVal

/-- An absent numeric field renders as JSON null. -/
def optNum : Option Int → JsonVal
  | none => JsonVal.jnull
  | some n => JsonVal.jnum n

/-- An absent string field renders as JSON null. -/
def optStr : Option String → JsonVal
  | none => JsonVal.jnull
  | some s => JsonVal.jstr s

/-- Modelled from the spec: `formatters/json_formatter.py` is absent from
src/.  The JSON object a `Video` record dumps to, one field per model
field with absent optional fields as null. -/
def videoFields (v : Video) : List (String × JsonVal) :=
  [("video_id", JsonVal.jstr v.video_id),
   ("title", JsonVal.jstr v.title),
   ("url", JsonVal.jstr v.url),
   ("duration", optNum v.duration),
   ("view_count", optNum v.view_count),
   ("uploader", optStr v.uploader),
   ("upload_date", optStr v.upload_date),
   ("thumbnail", optStr v.thumbnail),
   ("timestamp", optNum v.timestamp),
   ("release_timestamp", optNum v.release_timestamp)]

/-- The JSON value of one video. -/
def video_to_json (v : Video) : JsonVal := JsonVal.jobj (videoFields v)

/-- Modelled from the spec: the JSON object a `Playlist` record dumps to. -/
def playlistFields (p : Playlist) : List (String × JsonVal) :=
  [("playlist_id", JsonVal.jstr p.playlist_id),
   ("title", JsonVal.jstr p.title),
   ("url", JsonVal.jstr p.url),
   ("uploader", optStr p.uploader),
   ("uploader_id", optStr p.uploader_id),
   ("video_count", optNum p.video_count),
   ("thumbnail", optStr p.thumbnail),
   ("description", optStr p.description),
   ("modified_date", optStr p.modified_date)]

/-- The JSON value of one playlist. -/
def playlist_to_json (p : Playlist) : JsonVal := JsonVal.jobj (playlistFields p)

/-- Modelled from the spec: the JSON formatter's `format_videos` serializes
the object with a `count` field and a `videos` list; the string returned to
the caller is the dump of this value by the external JSON library. -/
def format_videos (vs : List Video) : JsonVal :=
  JsonVal.jobj [("count", JsonVal.jnum vs.length),
    ("videos", JsonVal.jarr (vs.map video_to_json))]

/-- Modelled from the spec: the JSON formatter's `format_playlists`. -/
def format_playlists (ps : List Playlist) : JsonVal :=
  JsonVal.jobj [("count", JsonVal.jnum ps.length),
    ("playlists", JsonVal.jarr (ps.map playlist_to_json))]

/-- The field list of a JSON object value. -/
def jfields : JsonVal → List (String × JsonVal)
  | JsonVal.jobj l => l
  | _ => []

/-- A video record with every optional field absent, used as a lookup
default. -/
def emptyVideo : Video :=
  ⟨"", "", "", none, none, none, none, none, none, none⟩

/-- The observable behaviour of one run of the retry wrapper: how many times
the wrapped function was called, which delays were slept in order, and the
final outcome (`none` only in the degenerate zero-attempt case, where the
Python loop body never runs). -/
structure RetryTrace (ε α : Type) where
  calls : Nat
  sleeps : List ℚ
  result : Option (Except ε α)

/-- Modelled from the spec: `search/retry_decorator.py` is absent from src/
(only its test suite is).  The retry loop of `async_retry`: `f i` is the
outcome of the i-th call of the wrapped coroutine, `E` the membership test of
the configured exception tuple, `b` the backoff factor, `rem` the remaining
attempts, `cur` the current delay; delays are modelled as exact rationals. -/
def retry_go {ε α : Type} (E : ε → Bool) (f : Nat → Except ε α) (b : ℚ) :
    Nat → Nat → ℚ → RetryTrace ε α
  | 0, _, _ => ⟨0, [], none⟩
  | rem + 1, i, cur =>
    match f i with
    | Except.ok a => ⟨1, [], some (Except.ok a)⟩
    | Except.error e =>
      if E e then
        match rem with
        | 0 => ⟨1, [], some (Except.error e)⟩
        | rem2 + 1 =>
          let t := retry_go E f b (rem2 + 1) (i + 1) (cur * b)
          ⟨t.calls + 1, cur :: t.sleeps, t.result⟩
      else ⟨1, [], some (Except.error e)⟩

/-- Modelled from the spec: the trace of `async_retry(max_attempts, delay,
backoff, exceptions)` applied to a wrapped coroutine whose i-th call gives
`f i`. -/
def async_retry {ε α : Type} (E : ε → Bool) (f : Nat → Except ε α)
    (max_attempts : Nat) (delay backoff : ℚ) : RetryTrace ε α :=
  retry_go E f backoff max_attempts 0 delay

/-- Membership in a `dropEnds` result implies membership in the original. -/
theorem mem_of_mem_dropEnds {p : Char → Bool} {l : List Char} {c : Char}
    (h : c ∈ dropEnds p l) : c ∈ l := by
  unfold dropEnds at h
  rw [List.mem_reverse] at h
  have h2 := (List.dropWhile_sublist p).subset h
  rw [List.mem_reverse] at h2
  exact (List.dropWhile_sublist p).subset h2

/-- `dropEnds` is the identity when neither end satisfies the predicate. -/
theorem dropEnds_eq_self {p : Char → Bool} {l : List Char}
    (h1 : ∀ c, l.head? = some c → p c = false)
    (h2 : ∀ c, l.getLast? = some c → p c = false) :
    dropEnds p l = l := by
  unfold dropEnds
  have e1 : l.dropWhile p = l := by
    cases l with
    | nil => rfl
    | cons a as => rw [List.dropWhile_cons, if_neg (by simp [h1 a rfl])]
  rw [e1]
  have e2 : l.reverse.dropWhile p = l.reverse := by
    cases hr : l.reverse with
    | nil => rfl
    | cons a as =>
      rw [List.dropWhile_cons, if_neg]
      have ha : l.getLast? = some a := by
        rw [← List.head?_reverse, hr]; rfl
      simp [h2 a ha]
  rw [e2, List.reverse_reverse]

/-- The image of `replace_invalid` never lies in the refused-character set. -/
theorem replace_invalid_not_mem (c : Char) :
    replace_invalid c ∉ invalid_filename_chars := by
  unfold replace_invalid
  split
  · decide
  · next h => simpa [List.contains, List.elem_eq_mem] using h

/-- `replace_invalid` maps non-edge characters to non-edge characters. -/
theorem isStripChar_replace_invalid {c : Char} (h : isStripChar c = false) :
    isStripChar (replace_invalid c) = false := by
  unfold replace_invalid
  split
  · decide
  · exact h

example : validate_video_id (some "dQw4w9WgXcQ") = true := by decide
example : validate_video_id (some "abc_def_123") = true := by decide
example : validate_video_id (some "abc@def#123") = false := by decide
example : validate_video_id (some "abc def 123") = false := by decide
example : validate_video_id none = false := by decide
example : validate_query (some "  python tutorial  ") = QueryResult.ok "python tutorial" := by decide
example : validate_query (some "   ") = QueryResult.err query_empty_msg := by decide
example : validate_query none = QueryResult.err query_empty_msg := by decide
example : containsSubstr query_too_long_msg "too long" = true := by decide
example : containsSubstr query_empty_msg "empty" = true := by decide
example : sanitize_filename "file<name.mp4" = "file_name.mp4" := by decide
example : sanitize_filename "...filename.mp4" = "filename.mp4" := by decide
example : sanitize_filename "filename..." = "filename" := by decide
example : sanitize_filename "..." = "unnamed" := by decide
example : sanitize_filename "<>:\"/\\|?*" = "_________" := by decide
example : sanitize_filename "What is C++? | Programming Tutorial: Part 1/10"
    = "What is C++_ _ Programming Tutorial_ Part 1_10" := by decide

/-- C6: `validate_query` returns the whitespace-trimmed query exactly when the
trimmed length is between 1 and 200, raises `InvalidQueryError` with a message
mentioning "empty" when the input is absent, empty or whitespace-only, raises
with a message mentioning "too long" when the trimmed query exceeds 200
characters; and `validate_video_id` accepts exactly the eleven-character
strings over ASCII letters, digits, underscore and hyphen, rejecting `none`. -/
theorem claim_C6_validators (s : String) (q : Option String) :
    (1 ≤ (pyStrip s).length → (pyStrip s).length ≤ 200 →
      validate_query (some s) = QueryResult.ok (pyStrip s)) ∧
    ((pyStrip s).length = 0 →
      validate_query (some s) = QueryResult.err query_empty_msg ∧
      containsSubstr query_empty_msg "empty" = true) ∧
    (200 < (pyStrip s).length →
      validate_query (some s) = QueryResult.err query_too_long_msg ∧
      containsSubstr query_too_long_msg "too long" = true) ∧
    validate_query none = QueryResult.err query_empty_msg ∧
    (validate_video_id q = true ↔
      ∃ t, q = some t ∧ t.length = 11 ∧
        ∀ c ∈ t.data, ('A' ≤ c ∧ c ≤ 'Z') ∨ ('a' ≤ c ∧ c ≤ 'z') ∨
          ('0' ≤ c ∧ c ≤ '9') ∨ c = '_' ∨ c = '-') := by
  refine ⟨?_, ?_, ?_, rfl, ?_⟩
  · intro h1 h2
    simp only [validate_query]
    rw [if_neg (by omega), if_neg (by omega)]
  · intro h0
    refine ⟨?_, by decide⟩
    simp only [validate_query]
    rw [if_pos h0]
  · intro h
    refine ⟨?_, by decide⟩
    simp only [validate_query]
    rw [if_neg (by omega), if_pos h]
  · cases q with
    | none => simp [validate_video_id]
    | some t =>
      simp only [validate_video_id, Bool.and_eq_true, beq_iff_eq,
        List.all_eq_true, is_valid_id_char, Bool.or_eq_true, decide_eq_true_eq,
        Option.some.injEq]
      constructor
      · rintro ⟨hlen, hall⟩
        exact ⟨t, rfl, hlen, fun c hc => by
          rcases hall c hc with (⟨h1, h2⟩ | ⟨h1, h2⟩ | ⟨h1, h2⟩ | h | h) <;> tauto⟩
      · rintro ⟨u, hu, hlen, hall⟩
        subst hu
        exact ⟨hlen, fun c hc => by
          rcases hall c hc with (⟨h1, h2⟩ | ⟨h1, h2⟩ | ⟨h1, h2⟩ | h | h) <;> tauto⟩

/-- C6 witness: the theorem applied to a concrete query and video id. -/
theorem claim_C6_validators_witness :
    validate_query (some "  python tutorial  ") = QueryResult.ok "python tutorial" ∧
    validate_query (some "   ") = QueryResult.err query_empty_msg ∧
    validate_video_id (some "dQw4w9WgXcQ") = true := by
  refine ⟨?_, ?_, ?_⟩
  · have h := (claim_C6_validators "  python tutorial  " none).1 (by decide) (by decide)
    simpa using h
  · exact ((claim_C6_validators "   " none).2.1 (by decide)).1
  · exact (claim_C6_validators "" (some "dQw4w9WgXcQ")).2.2.2.2.mpr
      ⟨"dQw4w9WgXcQ", rfl, by decide, by decide⟩

/-- C7 counterexample: the string `"..."` contains none of the nine refused
characters, yet `sanitize_filename` does not return it unchanged (the edge
periods are stripped and the empty remainder becomes `"unnamed"`). -/
theorem claim_C7_counterexample :
    sanitize_filename "..." ≠ "..." ∧
    "...".data.all (fun c => !(invalid_filename_chars.contains c)) = true := by
  decide

/-- C7 (amended): `sanitize_filename` returns a string free of the nine
refused characters and never empty; when neither end of the input is a period
or space each refused character is replaced in place by an underscore; and a
nonempty input containing no refused character and not starting or ending
with a period or space is returned unchanged. -/
theorem claim_C7_sanitize_filename (s : String) :
    (∀ c ∈ (sanitize_filename s).data, c ∉ invalid_filename_chars) ∧
    sanitize_filename s ≠ "" ∧
    ((∀ c, s.data.head? = some c → isStripChar c = false) →
     (∀ c, s.data.getLast? = some c → isStripChar c = false) →
     s ≠ "" →
     sanitize_filename s = String.mk (s.data.map replace_invalid)) ∧
    ((∀ c ∈ s.data, c ∉ invalid_filename_chars) →
     (∀ c, s.data.head? = some c → isStripChar c = false) →
     (∀ c, s.data.getLast? = some c → isStripChar c = false) →
     s ≠ "" →
     sanitize_filename s = s) := by
  have hmain : ∀ c, s.data.head? = some c → isStripChar c = false →
      ∀ d, s.data.getLast? = some d → isStripChar d = false →
      sanitize_filename s = String.mk (s.data.map replace_invalid) := by
    intro c hc hcs d hd hds
    simp only [sanitize_filename, stripEdges]
    have he : dropEnds isStripChar (s.data.map replace_invalid)
        = s.data.map replace_invalid := by
      apply dropEnds_eq_self
      · intro e he
        rw [List.head?_map, hc] at he
        cases he
        exact isStripChar_replace_invalid hcs
      · intro e he
        rw [List.getLast?_map, hd] at he
        cases he
        exact isStripChar_replace_invalid hds
    rw [he]
    have hne : s.data.map replace_invalid ≠ [] := by
      intro hnil
      rw [List.map_eq_nil_iff] at hnil
      rw [hnil] at hc
      cases hc
    rw [if_neg (by simpa [List.isEmpty_iff] using hne)]
  refine ⟨?_, ?_, ?_, ?_⟩
  · intro c hc
    simp only [sanitize_filename] at hc
    split at hc
    · have hall : ∀ x ∈ "unnamed".data, x ∉ invalid_filename_chars := by decide
      exact hall c hc
    · have hc2 : c ∈ stripEdges (s.data.map replace_invalid) := hc
      have hc3 := mem_of_mem_dropEnds hc2
      rcases List.mem_map.mp hc3 with ⟨c0, _, rfl⟩
      exact replace_invalid_not_mem c0
  · simp only [sanitize_filename]
    split
    · decide
    · next h =>
      intro hEq
      have : stripEdges (s.data.map replace_invalid) = [] := congrArg String.data hEq
      simp [List.isEmpty_iff, this] at h
  · intro hh hl hne
    have hdata : s.data ≠ [] := fun h0 => hne (congrArg String.mk h0)
    rcases List.exists_cons_of_ne_nil hdata with ⟨c, cs, hcons⟩
    have hc : s.data.head? = some c := by rw [hcons]; rfl
    rcases List.getLast?_isSome.mpr hdata |> Option.isSome_iff_exists.mp with ⟨d, hd⟩
    exact hmain c hc (hh c hc) d hd (hl d hd)
  · intro hinv hh hl hne
    have h3 : sanitize_filename s = String.mk (s.data.map replace_invalid) := by
      have hdata : s.data ≠ [] := fun h0 => hne (congrArg String.mk h0)
      rcases List.exists_cons_of_ne_nil hdata with ⟨c, cs, hcons⟩
      have hc : s.data.head? = some c := by rw [hcons]; rfl
      rcases List.getLast?_isSome.mpr hdata |> Option.isSome_iff_exists.mp with ⟨d, hd⟩
      exact hmain c hc (hh c hc) d hd (hl d hd)
    rw [h3]
    have : s.data.map replace_invalid = s.data := by
      have hcg : s.data.map replace_invalid = s.data.map id := by
        apply List.map_congr_left
        intro c hc
        unfold replace_invalid
        rw [if_neg (by simpa [List.contains, List.elem_eq_mem] using hinv c hc)]
        rfl
      rw [hcg, List.map_id]
    rw [this]

/-- C7 witness: the theorem applied to a concrete filename with a refused
character. -/
theorem claim_C7_sanitize_filename_witness :
    sanitize_filename "file<name.mp4" = "file_name.mp4" ∧
    sanitize_filename "my_video.mp4" = "my_video.mp4" := by
  constructor
  · have h := (claim_C7_sanitize_filename "file<name.mp4").2.2.1
      (by decide) (by decide) (by decide)
    simpa using h
  · exact (claim_C7_sanitize_filename "my_video.mp4").2.2.2
      (by decide) (by decide) (by decide) (by decide)

/-- `List.contains` agrees with membership. -/
theorem contains_eq_true_iff {α : Type} [DecidableEq α] {l : List α} {a : α} :
    l.contains a = true ↔ a ∈ l := by
  simp [List.contains, List.elem_eq_mem]

/-- C1: the downloader's error handler classifies an unavailable-video message
as `VideoNotFoundError`, otherwise a network-failure message as
`NetworkError`, and any other message as the generic `DownloadError`;
unavailability is checked before network failure; the four messages its tests
exercise classify as stated. -/
theorem claim_C1_error_classification (msg : String) :
    (_is_video_unavailable msg = true →
      _handle_ytdlp_error msg = YtdlpErrorKind.videoNotFound) ∧
    (_is_video_unavailable msg = false → _is_network_error msg = true →
      _handle_ytdlp_error msg = YtdlpErrorKind.networkError) ∧
    (_is_video_unavailable msg = false → _is_network_error msg = false →
      _handle_ytdlp_error msg = YtdlpErrorKind.downloadError) ∧
    (_is_video_unavailable msg = true → _is_network_error msg = true →
      _handle_ytdlp_error msg = YtdlpErrorKind.videoNotFound) ∧
    _handle_ytdlp_error "Video unavailable" = YtdlpErrorKind.videoNotFound ∧
    _handle_ytdlp_error "Private video" = YtdlpErrorKind.videoNotFound ∧
    _handle_ytdlp_error "Unable to download webpage" = YtdlpErrorKind.networkError ∧
    _handle_ytdlp_error "Connection refused" = YtdlpErrorKind.networkError := by
  refine ⟨?_, ?_, ?_, ?_, by decide, by decide, by decide, by decide⟩
  · intro h
    simp [_handle_ytdlp_error, h]
  · intro h1 h2
    simp [_handle_ytdlp_error, h1, h2]
  · intro h1 h2
    simp [_handle_ytdlp_error, h1, h2]
  · intro h _
    simp [_handle_ytdlp_error, h]

/-- C1 witness: the theorem applied to a message outside both indicator
sets. -/
theorem claim_C1_error_classification_witness :
    _handle_ytdlp_error "Some unknown error" = YtdlpErrorKind.downloadError :=
  (claim_C1_error_classification "Some unknown error").2.2.1 (by decide) (by decide)

/-- C4: constructing a `DownloadParams` record succeeds exactly when the video
identifier has length 11 and the quality, download type and format are all in
their enumerated sets; each violation yields a validation error, and valid
arguments yield the expected record. -/
theorem claim_C4_download_params (vid q fm dt : String) (od : Option String) :
    ((mkDownloadParams vid q fm dt od).isOk = true ↔
      vid.length = 11 ∧ q ∈ allowed_qualities ∧ dt ∈ allowed_download_types ∧
        fm ∈ allowed_formats) ∧
    (vid.length ≠ 11 → (mkDownloadParams vid q fm dt od).isOk = false) ∧
    (q ∉ allowed_qualities → (mkDownloadParams vid q fm dt od).isOk = false) ∧
    (dt ∉ allowed_download_types →
      (mkDownloadParams vid q fm dt od).isOk = false) ∧
    (fm ∉ allowed_formats → (mkDownloadParams vid q fm dt od).isOk = false) ∧
    (vid.length = 11 → q ∈ allowed_qualities → dt ∈ allowed_download_types →
      fm ∈ allowed_formats →
      mkDownloadParams vid q fm dt od = Except.ok ⟨vid, q, od, fm, dt⟩) := by
  have hok : (mkDownloadParams vid q fm dt od).isOk = true ↔
      vid.length = 11 ∧ q ∈ allowed_qualities ∧ dt ∈ allowed_download_types ∧
        fm ∈ allowed_formats := by
    unfold mkDownloadParams
    constructor
    · intro h
      split at h
      · split at h
        · split at h
          · split at h
            · next h1 h2 h3 h4 =>
              exact ⟨h1, contains_eq_true_iff.mp h2, contains_eq_true_iff.mp h3,
                contains_eq_true_iff.mp h4⟩
            · simp [Except.isOk, Except.toBool] at h
          · simp [Except.isOk, Except.toBool] at h
        · simp [Except.isOk, Except.toBool] at h
      · simp [Except.isOk, Except.toBool] at h
    · rintro ⟨h1, h2, h3, h4⟩
      rw [if_pos h1, if_pos (contains_eq_true_iff.mpr h2),
        if_pos (contains_eq_true_iff.mpr h3), if_pos (contains_eq_true_iff.mpr h4)]
      rfl
  refine ⟨hok, ?_, ?_, ?_, ?_, ?_⟩
  · intro hne
    rw [Bool.eq_false_iff]
    intro hT
    exact hne (hok.mp hT).1
  · intro hne
    rw [Bool.eq_false_iff]
    intro hT
    exact hne (hok.mp hT).2.1
  · intro hne
    rw [Bool.eq_false_iff]
    intro hT
    exact hne (hok.mp hT).2.2.1
  · intro hne
    rw [Bool.eq_false_iff]
    intro hT
    exact hne (hok.mp hT).2.2.2
  · intro h1 h2 h3 h4
    unfold mkDownloadParams
    rw [if_pos h1, if_pos (contains_eq_true_iff.mpr h2),
      if_pos (contains_eq_true_iff.mpr h3), if_pos (contains_eq_true_iff.mpr h4)]

/-- C4 witness: the theorem applied to concrete valid and invalid requests. -/
theorem claim_C4_download_params_witness :
    mkDownloadParams "dQw4w9WgXcQ" "high" "mp4" "video" none =
      Except.ok ⟨"dQw4w9WgXcQ", "high", none, "mp4", "video"⟩ ∧
    (mkDownloadParams "dQw4w9WgXcQ" "ultra" "mp4" "video" none).isOk = false ∧
    (mkDownloadParams "short" "best" "mp4" "video" none).isOk = false := by
  refine ⟨?_, ?_, ?_⟩
  · exact (claim_C4_download_params "dQw4w9WgXcQ" "high" "mp4" "video" none).2.2.2.2.2
      (by decide) (by decide) (by decide) (by decide)
  · exact (claim_C4_download_params "dQw4w9WgXcQ" "ultra" "mp4" "video" none).2.2.1
      (by decide)
  · exact (claim_C4_download_params "short" "best" "mp4" "video" none).2.1
      (by decide)

/-- C10: once the dependency module is initialized, `get_formatter` is total:
it returns the markdown formatter on `"markdown"`, the JSON formatter on
`"json"`, and falls back to the JSON formatter on every other string, never
failing. -/
theorem claim_C10_get_formatter (ft : String) :
    get_formatter initialized_formatters ft =
      some (if ft = "markdown" then ResultFormatter.markdownFormatter
        else ResultFormatter.jsonFormatter) := by
  by_cases h1 : ft = "markdown"
  · subst h1
    decide
  · rw [if_neg h1]
    by_cases h2 : ft = "json"
    · subst h2
      decide
    · have h1s : ("markdown" : String) ≠ ft := fun h => h1 h.symm
      have h2s : ("json" : String) ≠ ft := fun h => h2 h.symm
      simp [get_formatter, dictGet, initialized_formatters, h1s, h2s]

/-- `getD` of a mapped list at an in-range index is the image of `getD`. -/
theorem getD_map_of_lt {α β : Type} (f : α → β) (da : α) (db : β) :
    ∀ (l : List α) (i : Nat), i < l.length →
      (l.map f).getD i db = f (l.getD i da)
  | [], i, h => absurd h (by simp)
  | a :: as, 0, _ => rfl
  | a :: as, i + 1, h =>
    getD_map_of_lt f da db as i (by simpa using h)

/-- C2: `parse_video` and `parse_playlist` resolve `uploader` from the
`uploader` key when present, fall back to the `channel` key when `uploader`
is absent, and leave it absent when both are. -/
theorem claim_C2_uploader_fallback (conv : Option Int → Option String)
    (d : RawVideoData) (p : RawPlaylistData) :
    (d.uploader = none → (parse_video conv d).uploader = d.channel) ∧
    (∀ u, d.uploader = some u → (parse_video conv d).uploader = some u) ∧
    (d.uploader = none → d.channel = none →
      (parse_video conv d).uploader = none) ∧
    (p.uploader = none → (parse_playlist p).uploader = p.channel) ∧
    (∀ u, p.uploader = some u → (parse_playlist p).uploader = some u) ∧
    (p.uploader = none → p.channel = none →
      (parse_playlist p).uploader = none) := by
  refine ⟨?_, ?_, ?_, ?_, ?_, ?_⟩
  · intro h
    simp [parse_video, h, Option.orElse]
  · intro u h
    simp [parse_video, h, Option.orElse]
  · intro h1 h2
    simp [parse_video, h1, h2, Option.orElse]
  · intro h
    simp [parse_playlist, h, Option.orElse]
  · intro u h
    simp [parse_playlist, h, Option.orElse]
  · intro h1 h2
    simp [parse_playlist, h1, h2, Option.orElse]

/-- C2 witness: the theorem applied to concrete raw dictionaries. -/
theorem claim_C2_uploader_fallback_witness :
    (parse_video (fun _ => none)
      ⟨some "channel1234", some "Channel Only Video", none, none, none,
        some "Test Channel", none, none, [], none, none⟩).uploader
      = some "Test Channel" ∧
    (parse_playlist
      ⟨some "PLchannel", some "Channel Playlist", none, some "Test Channel",
        none, none, none, none, none, [], none, none⟩).uploader
      = some "Test Channel" := by
  constructor
  · have h := (claim_C2_uploader_fallback (fun _ => none)
      ⟨some "channel1234", some "Channel Only Video", none, none, none,
        some "Test Channel", none, none, [], none, none⟩
      ⟨none, none, none, none, none, none, none, none, none, [], none, none⟩).1
      rfl
    simpa using h
  · have h := (claim_C2_uploader_fallback (fun _ => none)
      ⟨none, none, none, none, none, none, none, none, [], none, none⟩
      ⟨some "PLchannel", some "Channel Playlist", none, some "Test Channel",
        none, none, none, none, none, [], none, none⟩).2.2.2.1
      rfl
    simpa using h

/-- C9: the parsed video's url is always the fixed watch stem followed by its
id; a missing `id` key yields the empty id and the bare stem, a missing
`title` key yields the title `"Unknown"`, and parsing is total. -/
theorem claim_C9_parse_video_url (conv : Option Int → Option String)
    (d : RawVideoData) :
    watch_url_base = "https://youtube.com/watch?v=" ∧
    (parse_video conv d).url =
      watch_url_base ++ (parse_video conv d).video_id ∧
    (d.id = none → (parse_video conv d).video_id = "" ∧
      (parse_video conv d).url = watch_url_base) ∧
    (d.title = none → (parse_video conv d).title = "Unknown") := by
  refine ⟨rfl, rfl, ?_, ?_⟩
  · intro h
    constructor
    · simp [parse_video, h]
    · simp [parse_video, h]
  · intro h
    simp [parse_video, h]

/-- C9 witness: the theorem applied to a raw dictionary missing both keys. -/
theorem claim_C9_parse_video_url_witness :
    (parse_video (fun _ => none)
      ⟨none, none, none, none, none, none, none, none, [], none, none⟩).url
      = "https://youtube.com/watch?v=" ∧
    (parse_video (fun _ => none)
      ⟨none, none, none, none, none, none, none, none, [], none, none⟩).title
      = "Unknown" := by
  constructor
  · exact ((claim_C9_parse_video_url (fun _ => none)
      ⟨none, none, none, none, none, none, none, none, [], none, none⟩).2.2.1
      rfl).2
  · exact (claim_C9_parse_video_url (fun _ => none)
      ⟨none, none, none, none, none, none, none, none, [], none, none⟩).2.2.2
      rfl

/-- C8: `format_videos` serializes an object whose `count` field is the input
length and whose `videos` field is the image list in order, with absent
optional fields rendered as null; `format_playlists` does the same with
`playlists`. -/
theorem claim_C8_json_formatter (vs : List Video) (ps : List Playlist)
    (v : Video) (p : Playlist) :
    dictGet (jfields (format_videos vs)) "count" =
      some (JsonVal.jnum vs.length) ∧
    dictGet (jfields (format_videos vs)) "videos" =
      some (JsonVal.jarr (vs.map video_to_json)) ∧
    (vs.map video_to_json).length = vs.length ∧
    (∀ i, i < vs.length →
      (vs.map video_to_json).getD i JsonVal.jnull =
        video_to_json (vs.getD i emptyVideo)) ∧
    (v.duration = none → dictGet (videoFields v) "duration" =
      some JsonVal.jnull) ∧
    (v.view_count = none → dictGet (videoFields v) "view_count" =
      some JsonVal.jnull) ∧
    (v.uploader = none → dictGet (videoFields v) "uploader" =
      some JsonVal.jnull) ∧
    (v.upload_date = none → dictGet (videoFields v) "upload_date" =
      some JsonVal.jnull) ∧
    (v.thumbnail = none → dictGet (videoFields v) "thumbnail" =
      some JsonVal.jnull) ∧
    dictGet (jfields (format_playlists ps)) "count" =
      some (JsonVal.jnum ps.length) ∧
    dictGet (jfields (format_playlists ps)) "playlists" =
      some (JsonVal.jarr (ps.map playlist_to_json)) ∧
    (ps.map playlist_to_json).length = ps.length ∧
    (p.uploader = none → dictGet (playlistFields p) "uploader" =
      some JsonVal.jnull) ∧
    (p.video_count = none → dictGet (playlistFields p) "video_count" =
      some JsonVal.jnull) ∧
    (p.description = none → dictGet (playlistFields p) "description" =
      some JsonVal.jnull) := by
  refine ⟨rfl, rfl, by simp, ?_, ?_, ?_, ?_, ?_, ?_, rfl, rfl, by simp,
    ?_, ?_, ?_⟩
  · intro i h
    exact getD_map_of_lt video_to_json emptyVideo JsonVal.jnull vs i h
  · intro h
    simp [videoFields, dictGet, h, optNum]
  · intro h
    simp [videoFields, dictGet, h, optNum]
  · intro h
    simp [videoFields, dictGet, h, optStr]
  · intro h
    simp [videoFields, dictGet, h, optStr]
  · intro h
    simp [videoFields, dictGet, h, optStr]
  · intro h
    simp [playlistFields, dictGet, h, optStr]
  · intro h
    simp [playlistFields, dictGet, h, optNum]
  · intro h
    simp [playlistFields, dictGet, h, optStr]

/-- C8 witness: the theorem applied to a singleton video list and a record
with absent optional fields. -/
theorem claim_C8_json_formatter_witness :
    (([emptyVideo].map video_to_json).getD 0 JsonVal.jnull =
      video_to_json emptyVideo) ∧
    dictGet (videoFields emptyVideo) "duration" = some JsonVal.jnull := by
  constructor
  · exact (claim_C8_json_formatter [emptyVideo] [] emptyVideo
      ⟨"", "", "", none, none, none, none, none, none⟩).2.2.2.1 0 (by decide)
  · exact (claim_C8_json_formatter [emptyVideo] [] emptyVideo
      ⟨"", "", "", none, none, none, none, none, none⟩).2.2.2.2.1 rfl

/-- One attempt left and a retryable failure: one call, no sleep, re-raise. -/
theorem retry_go_last_err {ε α : Type} (E : ε → Bool) (f : Nat → Except ε α)
    (b : ℚ) (i : Nat) (cur : ℚ) (e : ε)
    (he : f i = Except.error e) (hE : E e = true) :
    retry_go E f b 1 i cur = ⟨1, [], some (Except.error e)⟩ := by
  simp [retry_go, he, hE]

/-- More attempts left and a retryable failure: sleep the current delay and
recurse with the delay multiplied by the backoff. -/
theorem retry_go_step_err {ε α : Type} (E : ε → Bool) (f : Nat → Except ε α)
    (b : ℚ) (rem i : Nat) (cur : ℚ) (e : ε)
    (he : f i = Except.error e) (hE : E e = true) :
    retry_go E f b (rem + 2) i cur =
      ⟨(retry_go E f b (rem + 1) (i + 1) (cur * b)).calls + 1,
       cur :: (retry_go E f b (rem + 1) (i + 1) (cur * b)).sleeps,
       (retry_go E f b (rem + 1) (i + 1) (cur * b)).result⟩ := by
  conv_lhs => rw [retry_go]
  simp [he, hE]

/-- A successful call returns immediately: one call, no sleep. -/
theorem retry_go_ok {ε α : Type} (E : ε → Bool) (f : Nat → Except ε α)
    (b : ℚ) (rem i : Nat) (cur : ℚ) (a : α) (ha : f i = Except.ok a) :
    retry_go E f b (rem + 1) i cur = ⟨1, [], some (Except.ok a)⟩ := by
  simp [retry_go, ha]

/-- A non-retryable exception propagates after a single call. -/
theorem retry_go_err_not_retryable {ε α : Type} (E : ε → Bool)
    (f : Nat → Except ε α) (b : ℚ) (rem i : Nat) (cur : ℚ) (e : ε)
    (he : f i = Except.error e) (hE : E e = false) :
    retry_go E f b (rem + 1) i cur = ⟨1, [], some (Except.error e)⟩ := by
  simp [retry_go, he, hE]

/-- When every attempt fails retryably, `retry_go` makes all `rem + 1` calls,
sleeps the geometric delays, and re-raises the last exception. -/
theorem retry_go_all_fail {ε α : Type} (E : ε → Bool) (f : Nat → Except ε α)
    (b : ℚ) :
    ∀ (rem i : Nat) (cur : ℚ),
      (∀ k, k ≤ rem → ∃ e, f (i + k) = Except.error e ∧ E e = true) →
      (retry_go E f b (rem + 1) i cur).calls = rem + 1 ∧
      (retry_go E f b (rem + 1) i cur).sleeps =
        (List.range rem).map (fun k => cur * b ^ k) ∧
      ∀ e, f (i + rem) = Except.error e →
        (retry_go E f b (rem + 1) i cur).result = some (Except.error e) := by
  intro rem
  induction rem with
  | zero =>
    intro i cur h
    obtain ⟨e, he, hE⟩ := h 0 (le_refl 0)
    rw [Nat.add_zero] at he
    rw [retry_go_last_err E f b i cur e he hE]
    refine ⟨rfl, rfl, ?_⟩
    intro e2 he2
    rw [Nat.add_zero] at he2
    rw [he] at he2
    cases he2
    rfl
  | succ rem ih =>
    intro i cur h
    obtain ⟨e, he, hE⟩ := h 0 (Nat.zero_le _)
    rw [Nat.add_zero] at he
    rw [retry_go_step_err E f b rem i cur e he hE]
    have hsub : ∀ k, k ≤ rem →
        ∃ e2, f (i + 1 + k) = Except.error e2 ∧ E e2 = true := by
      intro k hk
      have h2 := h (k + 1) (by omega)
      rw [show i + (k + 1) = i + 1 + k by omega] at h2
      exact h2
    obtain ⟨hc, hs, hr⟩ := ih (i + 1) (cur * b) hsub
    refine ⟨by rw [hc], ?_, ?_⟩
    · show cur :: (retry_go E f b (rem + 1) (i + 1) (cur * b)).sleeps = _
      rw [hs, List.range_succ_eq_map, List.map_cons, List.map_map, pow_zero,
        mul_one]
      congr 1
      apply List.map_congr_left
      intro k _
      show cur * b * b ^ k = cur * b ^ (k + 1)
      ring
    · intro e2 he2
      apply hr
      rw [show i + 1 + rem = i + (rem + 1) by omega]
      exact he2

/-- When the first success comes at call `k`, `retry_go` makes `k + 1` calls
and returns that value. -/
theorem retry_go_first_ok {ε α : Type} (E : ε → Bool) (f : Nat → Except ε α)
    (b : ℚ) :
    ∀ (k rem i : Nat) (cur : ℚ) (a : α), k ≤ rem →
      (∀ j, j < k → ∃ e, f (i + j) = Except.error e ∧ E e = true) →
      f (i + k) = Except.ok a →
      (retry_go E f b (rem + 1) i cur).calls = k + 1 ∧
      (retry_go E f b (rem + 1) i cur).result = some (Except.ok a) := by
  intro k
  induction k with
  | zero =>
    intro rem i cur a _ _ ha
    rw [Nat.add_zero] at ha
    rw [retry_go_ok E f b rem i cur a ha]
    exact ⟨rfl, rfl⟩
  | succ k ih =>
    intro rem i cur a hk hfail ha
    obtain ⟨e, he, hE⟩ := hfail 0 (Nat.succ_pos k)
    rw [Nat.add_zero] at he
    cases rem with
    | zero => omega
    | succ rem2 =>
      rw [retry_go_step_err E f b rem2 i cur e he hE]
      have hsub : ∀ j, j < k →
          ∃ e2, f (i + 1 + j) = Except.error e2 ∧ E e2 = true := by
        intro j hj
        have h2 := hfail (j + 1) (by omega)
        rw [show i + (j + 1) = i + 1 + j by omega] at h2
        exact h2
      have ha2 : f (i + 1 + k) = Except.ok a := by
        rw [show i + 1 + k = i + (k + 1) by omega]
        exact ha
      obtain ⟨hc, hr⟩ := ih rem2 (i + 1) (cur * b) a (by omega) hsub ha2
      exact ⟨by rw [hc], hr⟩

/-- C3: against a wrapped coroutine whose i-th call yields `f i`,
`async_retry` with `n` attempts, initial delay `d` and backoff `b` makes
exactly `n` calls and sleeps `d, d*b, ..., d*b^(n-2)` when every call raises
a retryable exception, re-raising the last one; returns the value of the
first successful call after exactly that many calls; and propagates a
non-retryable exception after a single call with no sleep. -/
theorem claim_C3_async_retry {ε α : Type} (E : ε → Bool)
    (f : Nat → Except ε α) (n : Nat) (d b : ℚ) (hn : 1 ≤ n) :
    ((∀ k, k < n → ∃ e, f k = Except.error e ∧ E e = true) →
      (async_retry E f n d b).calls = n ∧
      (async_retry E f n d b).sleeps =
        (List.range (n - 1)).map (fun k => d * b ^ k) ∧
      ∀ e, f (n - 1) = Except.error e →
        (async_retry E f n d b).result = some (Except.error e)) ∧
    (∀ k a, k < n → (∀ j, j < k → ∃ e, f j = Except.error e ∧ E e = true) →
      f k = Except.ok a →
      (async_retry E f n d b).calls = k + 1 ∧
      (async_retry E f n d b).result = some (Except.ok a)) ∧
    (∀ e, f 0 = Except.error e → E e = false →
      async_retry E f n d b = ⟨1, [], some (Except.error e)⟩) := by
  obtain ⟨m, rfl⟩ : ∃ m, n = m + 1 := ⟨n - 1, by omega⟩
  refine ⟨?_, ?_, ?_⟩
  · intro h
    have h2 : ∀ k, k ≤ m → ∃ e, f (0 + k) = Except.error e ∧ E e = true := by
      intro k hk
      rw [Nat.zero_add]
      exact h k (by omega)
    obtain ⟨hc, hs, hr⟩ := retry_go_all_fail E f b m 0 d h2
    refine ⟨hc, by simpa using hs, ?_⟩
    intro e he
    apply hr
    rw [Nat.zero_add]
    simpa using he
  · intro k a hk hfail ha
    have hsub : ∀ j, j < k →
        ∃ e, f (0 + j) = Except.error e ∧ E e = true := by
      intro j hj
      rw [Nat.zero_add]
      exact hfail j hj
    exact retry_go_first_ok E f b k m 0 d a (by omega) hsub
      (by rw [Nat.zero_add]; exact ha)
  · intro e he hE
    exact retry_go_err_not_retryable E f b m 0 d e he hE

/-- C3 witness: the theorem applied to concrete always-failing,
succeed-on-second-call and non-retryable coroutines. -/
theorem claim_C3_async_retry_witness :
    (async_retry (fun _ => true) (fun _ => (Except.error 7 : Except Nat Nat))
      3 1 2).calls = 3 ∧
    (async_retry (fun _ => true) (fun _ => (Except.error 7 : Except Nat Nat))
      3 1 2).result = some (Except.error 7) ∧
    (async_retry (fun _ => true)
      (fun i => if i = 0 then Except.error 5 else Except.ok 9)
      3 1 2).calls = 2 ∧
    async_retry (fun _ => false) (fun _ => (Except.error 4 : Except Nat Nat))
      3 1 2 = ⟨1, [], some (Except.error 4)⟩ := by
  refine ⟨?_, ?_, ?_, ?_⟩
  · exact ((claim_C3_async_retry (fun _ => true)
      (fun _ => (Except.error 7 : Except Nat Nat)) 3 1 2 (by decide)).1
      (fun k _ => ⟨7, rfl, rfl⟩)).1
  · exact ((claim_C3_async_retry (fun _ => true)
      (fun _ => (Except.error 7 : Except Nat Nat)) 3 1 2 (by decide)).1
      (fun k _ => ⟨7, rfl, rfl⟩)).2.2 7 rfl
  · exact ((claim_C3_async_retry (fun _ => true)
      (fun i => if i = 0 then Except.error 5 else (Except.ok 9 : Except Nat Nat))
      3 1 2 (by decide)).2.1 1 9 (by decide)
      (fun j hj => by rw [Nat.lt_one_iff.mp hj]; exact ⟨5, rfl, rfl⟩) rfl).1
  · exact (claim_C3_async_retry (fun _ => false)
      (fun _ => (Except.error 4 : Except Nat Nat)) 3 1 2 (by decide)).2.2 4
      rfl rfl

end YoutubeSearchMcp
